import Mathlib

/-!
Verification of the Gruenerator desktop shell core
(`src/apps/desktop/src-tauri/src/lib.rs` and the identical deep-link /
splash logic in `src/packages/desktop/src-tauri/src/lib.rs`).

The shell state is embedded shallowly: a window is a record of its
observable attributes (visible, focused, fullscreen); the window registry
holds an optional splash window and an optional main window.  Fallible
host calls (`is_visible`, `is_fullscreen`, `theme`, the updater) are
modelled as `Except String` values handed to the embedded function, so
that both the success and the failure paths of the Rust code are visible.
-/

/-- Observable attributes of a platform webview window. -/
structure WindowState where
  visible : Bool
  focused : Bool
  fullscreen : Bool
deriving DecidableEq

/-- The window registry as seen by the shell: the window named
"splashscreen" and the window named "main", each possibly absent
(`get_webview_window` returning `None`). -/
structure ShellState where
  splash : Option WindowState
  main : Option WindowState
deriving DecidableEq

/-- The body of the `close_splashscreen` command and, identically, of the
3-second fallback timer thread in `run`: close the splash window if
present (`splashscreen.close()` removes it from the registry), then show
the main window if present (`main_window.show()`). Absence of either
window is a silent no-op. -/
def close_splashscreen (s : ShellState) : ShellState :=
  let s1 : ShellState :=
    match s.splash with
    | some _ => { s with splash := none }
    | none => s
  match s1.main with
  | some w => { s1 with main := some { w with visible := true } }
  | none => s1

/-- Rust `Result::unwrap_or`: the ok value, or the default on error. -/
def unwrapOr (r : Except String Bool) (d : Bool) : Bool :=
  match r with
  | .ok b => b
  | .error _ => d

/-- `toggle_window_visibility`: given the registry entry for "main" and the
result of the host `is_visible` query on it, hide the window when the
query yields visible (treating a failed query as "not visible" via
`unwrap_or(false)`), otherwise show it and request focus.  An absent main
window is a no-op. -/
def toggle_window_visibility (main : Option WindowState)
    (is_visible : Except String Bool) : Option WindowState :=
  match main with
  | none => none
  | some w =>
    if unwrapOr is_visible false then
      some { w with visible := false }
    else
      some { w with visible := true, focused := true }

/-- The toggle under an honest host: the `is_visible` query succeeds and
reports the window's actual visibility. -/
def toggleMain (main : Option WindowState) : Option WindowState :=
  match main with
  | none => none
  | some w => toggle_window_visibility (some w) (Except.ok w.visible)

/-- The `tauri::Theme` values distinguished by the code: `Light`, `Dark`,
and (the enum being non-exhaustive) any other variant. -/
inductive HostTheme where
  | light
  | dark
  | other
deriving DecidableEq

/-- `get_system_theme`: match on the host `window.theme()` result; `Dark`
maps to "dark", and every other outcome — `Light`, an unrecognized
variant, or an error — falls into the wildcard arm mapping to "light".
The function never constructs an `Err`. -/
def get_system_theme (q : Except String HostTheme) : Except String String :=
  match q with
  | .ok .dark => Except.ok "dark"
  | .ok .light => Except.ok "light"
  | _ => Except.ok "light"

/-- The three outcomes of `updater.check()`: an update found (carrying its
version and optional release-notes body), no update found, or a failure
carrying a message. -/
inductive UpdateOutcome where
  | found (version : String) (body : Option String)
  | notFound
  | err (msg : String)
deriving DecidableEq

/-- The record returned by `check_for_update`. -/
structure UpdateCheckResult where
  available : Bool
  version : Option String
  current_version : String
  body : Option String
deriving DecidableEq

/-- `check_for_update`: after reading the process version, build the
updater (propagating a build failure as an error string), then normalize
the check outcome: found maps to an available result carrying the
update's version and body, not-found maps to an unavailable result with
no version and no body, and a check failure is propagated as an error
carrying its message. -/
def check_for_update (current_version : String)
    (build : Except String Unit) (outcome : UpdateOutcome) :
    Except String UpdateCheckResult :=
  match build with
  | .error e => Except.error e
  | .ok _ =>
    match outcome with
    | .found v b =>
      Except.ok { available := true, version := some v,
                  current_version := current_version, body := b }
    | .notFound =>
      Except.ok { available := false, version := none,
                  current_version := current_version, body := none }
    | .err e => Except.error e

/-- An outbound notification emitted to the UI layer: event name and
optional string payload (`()` payloads are `none`). -/
structure EmitMsg where
  event : String
  payload : Option String
deriving DecidableEq

/-- The literal accepted by the deep-link handler. -/
def authCallbackPat : String := "gruenerator://auth/callback"

/-- The `on_open_url` deep-link handler: for each URL of the activation
batch in order, emit a "deep-link-auth" notification carrying the exact
URL string when it starts with `gruenerator://auth/callback`, and drop it
otherwise. -/
def deepLinkOnOpenUrl (urls : List String) : List EmitMsg :=
  match urls with
  | [] => []
  | u :: rest =>
    if u.startsWith authCallbackPat then
      { event := "deep-link-auth", payload := some u } :: deepLinkOnOpenUrl rest
    else
      deepLinkOnOpenUrl rest

/-- The `on_menu_event` handler attached to the main window: dispatch on
the event identifier.  Notification arms emit one message and leave the
window unchanged; the "fullscreen" arm emits nothing and flips the
window's fullscreen flag when the host `is_fullscreen` query (whose
result is the `fsq` argument) succeeds, and is a no-op when it fails; the
wildcard arm does nothing. -/
def on_menu_event (w : WindowState) (fsq : Except String Bool)
    (id : String) : List EmitMsg × WindowState :=
  if id = "new" then ([⟨"menu-new", none⟩], w)
  else if id = "settings" then ([⟨"menu-settings", none⟩], w)
  else if id = "reload" then ([⟨"menu-reload", none⟩], w)
  else if id = "fullscreen" then
    match fsq with
    | .ok isFullscreen => ([], { w with fullscreen := !isFullscreen })
    | .error _ => ([], w)
  else if id = "zoom_in" then ([⟨"menu-zoom", some "in"⟩], w)
  else if id = "zoom_out" then ([⟨"menu-zoom", some "out"⟩], w)
  else if id = "zoom_reset" then ([⟨"menu-zoom", some "reset"⟩], w)
  else if id = "docs" then
    ([⟨"menu-open-url", some "https://gruenerator.de/"⟩], w)
  else if id = "feedback" then
    ([⟨"menu-open-url",
       some "https://gitlab.com/Netzbegruenung/gruenerator/-/issues"⟩], w)
  else if id = "about" then ([⟨"menu-about", none⟩], w)
  else if id = "check_updates" then ([⟨"menu-check-updates", none⟩], w)
  else ([], w)

/-- A menu activation as seen from the registry: the handler is installed
only when the main window exists (`if let Some(main_window) = ...`), so
with the main window absent the dispatch is a total no-op. -/
def menuDispatch (main : Option WindowState) (fsq : Except String Bool)
    (id : String) : List EmitMsg × Option WindowState :=
  match main with
  | none => ([], none)
  | some w =>
    let r := on_menu_event w fsq id
    (r.1, some r.2)

/-- The identifiers the menu handler recognizes. -/
def knownMenuIds : List String :=
  ["new", "settings", "reload", "fullscreen", "zoom_in", "zoom_out",
   "zoom_reset", "docs", "feedback", "about", "check_updates"]

/-- C1: whichever startup trigger runs the close-splash/show-main step, the
resulting state has the splash window closed and the main window visible,
and running the step a second time (the other trigger firing later) is
idempotent: it neither reopens the splash nor hides the main window. -/
theorem startup_step_closes_splash_shows_main_idempotent
    (s : ShellState) (w : WindowState) (hm : s.main = some w) :
    (close_splashscreen s).splash = none ∧
    (close_splashscreen s).main = some { w with visible := true } ∧
    close_splashscreen (close_splashscreen s) = close_splashscreen s := by
  obtain ⟨sp, mn⟩ := s
  simp only at hm
  subst hm
  cases sp <;> simp [close_splashscreen]

/-- Witness for C1 at a concrete startup state: splash shown, main hidden. -/
theorem startup_step_witness :
    (⟨some ⟨true, true, false⟩, some ⟨false, false, false⟩⟩ : ShellState).main =
      some ⟨false, false, false⟩ ∧
    ((close_splashscreen ⟨some ⟨true, true, false⟩, some ⟨false, false, false⟩⟩).splash = none ∧
     (close_splashscreen ⟨some ⟨true, true, false⟩, some ⟨false, false, false⟩⟩).main =
       some { (⟨false, false, false⟩ : WindowState) with visible := true } ∧
     close_splashscreen (close_splashscreen
        ⟨some ⟨true, true, false⟩, some ⟨false, false, false⟩⟩) =
       close_splashscreen ⟨some ⟨true, true, false⟩, some ⟨false, false, false⟩⟩) :=
  ⟨rfl, startup_step_closes_splash_shows_main_idempotent _ _ rfl⟩

/-- C2: a "no update found" outcome yields exactly
`{available := false, version := none, current_version, body := none}`,
and every successful result of `check_for_update` satisfies the
invariant that `available = false` implies `version = none` and
`body = none`. -/
theorem check_for_update_not_found (cv : String) (b : Except String Unit)
    (o : UpdateOutcome) (r : UpdateCheckResult)
    (h : check_for_update cv b o = Except.ok r) :
    (o = UpdateOutcome.notFound → r = ⟨false, none, cv, none⟩) ∧
    (r.available = false → r.version = none ∧ r.body = none) := by
  cases b with
  | error e => simp [check_for_update] at h
  | ok u =>
    cases o with
    | found v bd =>
      simp [check_for_update] at h
      subst h
      simp
    | notFound =>
      simp [check_for_update] at h
      subst h
      simp
    | err m => simp [check_for_update] at h

/-- Witness for C2: the not-found outcome at version "1.0.0". -/
theorem check_for_update_not_found_witness :
    check_for_update "1.0.0" (Except.ok ()) UpdateOutcome.notFound =
      Except.ok ⟨false, none, "1.0.0", none⟩ ∧
    ((UpdateOutcome.notFound = UpdateOutcome.notFound →
        (⟨false, none, "1.0.0", none⟩ : UpdateCheckResult) = ⟨false, none, "1.0.0", none⟩) ∧
     ((⟨false, none, "1.0.0", none⟩ : UpdateCheckResult).available = false →
        (⟨false, none, "1.0.0", none⟩ : UpdateCheckResult).version = none ∧
        (⟨false, none, "1.0.0", none⟩ : UpdateCheckResult).body = none)) :=
  ⟨rfl, check_for_update_not_found "1.0.0" (Except.ok ()) UpdateOutcome.notFound _ rfl⟩

/-- C3: a "found" outcome carrying version `v` and release notes yields
`{available := true, version := some v, current_version, body := some notes}`;
in particular version "1.2.3" with notes "fixes". -/
theorem check_for_update_found (cv v notes : String) :
    check_for_update cv (Except.ok ()) (UpdateOutcome.found v (some notes)) =
      Except.ok ⟨true, some v, cv, some notes⟩ ∧
    check_for_update cv (Except.ok ()) (UpdateOutcome.found "1.2.3" (some "fixes")) =
      Except.ok ⟨true, some "1.2.3", cv, some "fixes"⟩ :=
  ⟨rfl, rfl⟩

/-- C7: a failed host update check is propagated as an error carrying the
failure's message; no success value — in particular no
`{available := false}` record — is fabricated. -/
theorem check_for_update_failure_propagates (cv m : String) :
    check_for_update cv (Except.ok ()) (UpdateOutcome.err m) = Except.error m :=
  rfl

/-- C4: the deep-link handler emits, in input order, exactly one
"deep-link-auth" notification carrying the exact URL string for each URL
of the batch that starts with `gruenerator://auth/callback`, and nothing
for any other URL. -/
theorem deep_link_emits_matching_in_order (urls : List String) :
    deepLinkOnOpenUrl urls =
      (urls.filter (fun u => u.startsWith authCallbackPat)).map
        (fun u => ⟨"deep-link-auth", some u⟩) := by
  induction urls with
  | nil => rfl
  | cons u rest ih =>
    by_cases h : u.startsWith authCallbackPat <;>
      simp [deepLinkOnOpenUrl, List.filter_cons, h, ih]

/-- C5: under an honest host the toggle hides a visible main window and
shows-and-focuses a hidden one, agreeing with the fallible-query code at
`is_visible = Ok(actual visibility)`; two toggles restore the original
visibility (visible to hidden to visible, hidden to visible to hidden). -/
theorem toggle_visibility_round_trip (w : WindowState) :
    toggleMain (some w) = toggle_window_visibility (some w) (Except.ok w.visible) ∧
    toggleMain (some w) =
      some (if w.visible then { w with visible := false }
            else { w with visible := true, focused := true }) ∧
    (toggleMain (toggleMain (some w))).map WindowState.visible = some w.visible := by
  refine ⟨rfl, ?_, ?_⟩ <;>
    cases hv : w.visible <;>
      simp [toggleMain, toggle_window_visibility, unwrapOr, hv]

/-- C6: dispatching the "fullscreen" menu identifier on a present main
window flips its fullscreen flag (true becomes false and false becomes
true) and emits nothing; with the main window absent the dispatch is a
no-op and raises no error. -/
theorem menu_fullscreen_toggles_or_noop (w : WindowState)
    (fsq : Except String Bool) :
    menuDispatch (some w) (Except.ok w.fullscreen) "fullscreen" =
      ([], some { w with fullscreen := !w.fullscreen }) ∧
    menuDispatch none fsq "fullscreen" = ([], none) :=
  ⟨rfl, rfl⟩

/-- C8: dispatching a menu identifier outside the known set is a total
no-op: no notification is emitted and the window registry is unchanged,
for present and absent main window alike. -/
theorem menu_unknown_id_noop (main : Option WindowState)
    (fsq : Except String Bool) (id : String) (h : id ∉ knownMenuIds) :
    menuDispatch main fsq id = ([], main) := by
  simp only [knownMenuIds, List.mem_cons, List.not_mem_nil, or_false, not_or] at h
  obtain ⟨h1, h2, h3, h4, h5, h6, h7, h8, h9, h10, h11⟩ := h
  cases main with
  | none => rfl
  | some w =>
    simp [menuDispatch, on_menu_event, h1, h2, h3, h4, h5, h6, h7, h8, h9, h10, h11]

/-- Witness for C8: the unknown identifier "bogus". -/
theorem menu_unknown_id_noop_witness :
    "bogus" ∉ knownMenuIds ∧
    menuDispatch none (Except.ok true) "bogus" = ([], none) :=
  ⟨by decide, menu_unknown_id_noop none (Except.ok true) "bogus" (by decide)⟩

/-- C9: `get_system_theme` always returns `Ok`: the Dark theme maps to
"dark" and every other query outcome — Light, an unrecognized variant, or
a failed theme query — maps to "light". -/
theorem get_system_theme_never_errors (q : Except String HostTheme) :
    (∃ s, get_system_theme q = Except.ok s) ∧
    (q = Except.ok HostTheme.dark → get_system_theme q = Except.ok "dark") ∧
    (q ≠ Except.ok HostTheme.dark → get_system_theme q = Except.ok "light") := by
  refine ⟨?_, ?_, ?_⟩
  · cases q with
    | error e => exact ⟨"light", rfl⟩
    | ok t => cases t <;> exact ⟨_, rfl⟩
  · rintro rfl; rfl
  · intro hne
    cases q with
    | error e => rfl
    | ok t => cases t with
      | dark => exact absurd rfl hne
      | light => rfl
      | other => rfl

/-- Witness for C9: the Dark theme, and a failed theme query. -/
theorem get_system_theme_witness :
    get_system_theme (Except.ok HostTheme.dark) = Except.ok "dark" ∧
    get_system_theme (Except.error "query failed") = Except.ok "light" :=
  ⟨(get_system_theme_never_errors (Except.ok HostTheme.dark)).2.1 rfl,
   (get_system_theme_never_errors (Except.error "query failed")).2.2 (fun h => by cases h)⟩

/-- C10: when the `is_visible` query on a present main window fails, the
toggle treats the window as not visible: it shows it and requests focus
rather than hiding it. -/
theorem toggle_query_failure_shows (w : WindowState) (e : String) :
    toggle_window_visibility (some w) (Except.error e) =
      some { w with visible := true, focused := true } :=
  rfl
